import Mathlib

/-!
Verification development for the Garmin Connect FastAPI wrapper
(`app/main.py` plus the offline bootstrap script).

The Python routes, middleware, metrics projector and session bootstrapper
are shallowly embedded: the external `garminconnect` client, the system
clock and the filesystem are modelled as explicit environments (oracles),
and every handler is a pure function from those environments to an HTTP
response together with the trace of external calls it issued.
-/

namespace GarminWrapper

/-- JSON values as returned by the upstream client (Python objects after
JSON decoding: `None`, `bool`, numbers, `str`, `list`, `dict`). -/
inductive JsonVal where
  | null
  | bool (b : Bool)
  | num (q : Rat)
  | str (s : String)
  | arr (xs : List JsonVal)
  | obj (kvs : List (String × JsonVal))

/-- Python truthiness of a decoded JSON value (`if v:`). -/
def truthy : JsonVal → Bool
  | .null => false
  | .bool b => b
  | .num q => q != 0
  | .str s => s ≠ ""
  | .arr xs => !xs.isEmpty
  | .obj kvs => !kvs.isEmpty

/-- Lookup of a key in a decoded JSON object, first occurrence wins
(Python dicts have unique keys, so association lists with unique keys
model them; we keep the general list form). -/
def lookupKey : List (String × JsonVal) → String → Option JsonVal
  | [], _ => none
  | (k', v') :: rest, k => if k' = k then some v' else lookupKey rest k

/-- Python `d.get(k)`: `None` when the key is absent. -/
def dictGet (kvs : List (String × JsonVal)) (k : String) : JsonVal :=
  (lookupKey kvs k).getD .null

/-- Python `d.get(k, default)`. -/
def dictGetD (kvs : List (String × JsonVal)) (k : String) (d : JsonVal) : JsonVal :=
  (lookupKey kvs k).getD d

/-- Python `v.get(k)` on an arbitrary value: raises `AttributeError`
when `v` is not a dict. -/
def pyGetAttr (v : JsonVal) (k : String) : Except String JsonVal :=
  match v with
  | .obj kvs => .ok (dictGet kvs k)
  | _ => .error "AttributeError: object has no attribute get"

/-- Dict update `d[k] = v`: overwrite in place if the key exists,
append otherwise (Python insertion order). -/
def setKey : List (String × JsonVal) → String → JsonVal → List (String × JsonVal)
  | [], k, v => [(k, v)]
  | (k', v') :: rest, k, v =>
      if k' = k then (k, v) :: rest else (k', v') :: setKey rest k v

/-- Python item assignment `o[k] = v` on an arbitrary value: raises
`TypeError` when `o` is not a dict. -/
def pySetItem (o : JsonVal) (k : String) (v : JsonVal) : Except String JsonVal :=
  match o with
  | .obj kvs => .ok (.obj (setKey kvs k v))
  | _ => .error "TypeError: object does not support item assignment"

/-- Python `v is None` on a decoded JSON value. -/
def isNull : JsonVal → Bool
  | .null => true
  | _ => false

/-- Python `x or y`: the first operand if truthy, else the second. -/
def pyOr (x y : JsonVal) : JsonVal :=
  if truthy x then x else y

/-- Python `x + y` on decoded JSON values (numbers add, booleans coerce
to 0/1, strings and lists concatenate; anything else raises `TypeError`). -/
def pyAdd (x y : JsonVal) : Except String JsonVal :=
  match x, y with
  | .num a, .num b => .ok (.num (a + b))
  | .num a, .bool b => .ok (.num (a + (if b then 1 else 0)))
  | .bool a, .num b => .ok (.num ((if a then 1 else 0) + b))
  | .bool a, .bool b => .ok (.num ((if a then 1 else 0) + (if b then 1 else 0)))
  | .str a, .str b => .ok (.str (a ++ b))
  | .arr a, .arr b => .ok (.arr (a ++ b))
  | _, _ => .error "TypeError: unsupported operand types for +"

/-- Python `x / 1000`-style true division by a literal (numbers and
booleans divide, anything else raises `TypeError`). -/
def pyDiv (x : JsonVal) (d : Rat) : Except String JsonVal :=
  match x with
  | .num a => .ok (.num (a / d))
  | .bool a => .ok (.num ((if a then 1 else 0) / d))
  | _ => .error "TypeError: unsupported operand types for /"

/-- The authenticated Session Handle: either rebuilt from the token
directory or obtained by a fresh credential login. -/
inductive GarminClient where
  | fromTokens
  | fromCredentials (email password : String)
  deriving DecidableEq, Repr

/-- One outbound call to the external `garminconnect` client, with the
arguments it was given. -/
inductive Fetch where
  | get_stats (d : String)
  | get_heart_rates (d : String)
  | get_sleep_data (d : String)
  | get_stress_data (d : String)
  | get_body_battery (d : String)
  | get_steps_data (d : String)
  | get_activities (start limit : Int)
  | get_activity (id : Int)
  | get_activity_splits (id : Int)
  | get_activity_hr_in_timezones (id : Int)
  | get_body_composition (startDate endDate : String)
  | get_spo2_data (d : String)
  | get_hrv_data (d : String)
  | get_respiration_data (d : String)
  | get_full_name
  | get_user_settings
  | get_devices
  | get_personal_record
  | get_training_status (d : String)
  deriving DecidableEq, Repr

/-- Oracle for the external client: the outcome each method would
produce if called during this request (an exception message or a decoded
JSON payload). -/
structure ClientEnv where
  get_stats : String → Except String JsonVal
  get_heart_rates : String → Except String JsonVal
  get_sleep_data : String → Except String JsonVal
  get_stress_data : String → Except String JsonVal
  get_body_battery : String → Except String JsonVal
  get_steps_data : String → Except String JsonVal
  get_activities : Int → Int → Except String JsonVal
  get_activity : Int → Except String JsonVal
  get_activity_splits : Int → Except String JsonVal
  get_activity_hr_in_timezones : Int → Except String JsonVal
  get_body_composition : String → String → Except String JsonVal
  get_spo2_data : String → Except String JsonVal
  get_hrv_data : String → Except String JsonVal
  get_respiration_data : String → Except String JsonVal
  get_full_name : Except String JsonVal
  get_user_settings : Except String JsonVal
  get_devices : Except String JsonVal
  get_personal_record : Except String JsonVal
  get_training_status : String → Except String JsonVal

/-- The ambient clock, pre-rendered the way `main.py` uses it:
`date.today().isoformat()`, `(date.today() - timedelta(days=1)).isoformat()`
and `(date.today() - timedelta(days=30)).isoformat()`. -/
structure Clock where
  today : String
  yesterday : String
  thirtyDaysAgo : String

/-- An HTTP response: a 200 JSON body, an `HTTPException`-style error
with a detail string, or an explicit `JSONResponse` with a status code. -/
inductive HttpResp where
  | ok (body : JsonVal)
  | err (status : Nat) (detail : String)
  | json (status : Nat) (body : JsonVal)

/-- The data routes registered in `main.py` (every handler that takes
`client: Garmin = Depends(get_client)`), with their parameters. -/
inductive Route where
  | stats_today
  | stats_by_date (date_str : String)
  | heart_rate_today
  | heart_rate_by_date (date_str : String)
  | sleep_today
  | sleep_by_date (date_str : String)
  | stress_today
  | stress_by_date (date_str : String)
  | body_battery_today
  | body_battery_by_date (date_str : String)
  | steps_today
  | steps_by_date (date_str : String)
  | activities_recent (limit : Int)
  | activity (activity_id : Int)
  | activity_splits (activity_id : Int)
  | activity_hr_zones (activity_id : Int)
  | weight_latest
  | weight_range (start_date end_date : String)
  | spo2_today
  | spo2_by_date (date_str : String)
  | hrv_today
  | hrv_by_date (date_str : String)
  | respiration_today
  | respiration_by_date (date_str : String)
  | user_profile
  | user_settings
  | devices
  | records
  | training_status
  | summary_today
  deriving DecidableEq, Repr

/-- The shared `try/except` shape of the simple pass-through handlers:
return the client call's payload verbatim, or a 500 with the exception
message as detail; exactly one fetch is issued either way. -/
def passthrough (res : Except String JsonVal) (f : Fetch) : HttpResp × List Fetch :=
  (match res with
   | .ok v => .ok v
   | .error e => .err 500 e, [f])

/-- Handler body of `GET /stats/today` (`get_today_stats` in `main.py`): fetch
today's stats; if both `totalSteps` and `totalKilocalories` are `None`,
re-fetch yesterday's stats and annotate them with `_fallback` and
`_requestedDate`; any exception becomes a 500. -/
def get_today_stats (env : ClientEnv) (clock : Clock) : HttpResp × List Fetch :=
  match env.get_stats clock.today with
  | .error e => (.err 500 e, [.get_stats clock.today])
  | .ok stats =>
    match pyGetAttr stats "totalSteps" with
    | .error e => (.err 500 e, [.get_stats clock.today])
    | .ok v1 =>
      if isNull v1 then
        match pyGetAttr stats "totalKilocalories" with
        | .error e => (.err 500 e, [.get_stats clock.today])
        | .ok v2 =>
          if isNull v2 then
            match env.get_stats clock.yesterday with
            | .error e => (.err 500 e, [.get_stats clock.today, .get_stats clock.yesterday])
            | .ok ystats =>
              match (pySetItem ystats "_fallback" (.bool true)).bind
                      (fun s => pySetItem s "_requestedDate" (.str clock.today)) with
              | .error e => (.err 500 e, [.get_stats clock.today, .get_stats clock.yesterday])
              | .ok annotated =>
                  (.ok annotated, [.get_stats clock.today, .get_stats clock.yesterday])
          else (.ok stats, [.get_stats clock.today])
      else (.ok stats, [.get_stats clock.today])

/-- The payload stored under one summary key: the fetch's result, or
`None` when the fetch raised. -/
def orNull : Except String JsonVal → JsonVal
  | .ok v => v
  | .error _ => .null

/-- One `try: summary[k] = fetch() except: summary[k] = None` step of
the summary handler. -/
def tryKey (summary : List (String × JsonVal)) (k : String)
    (res : Except String JsonVal) : List (String × JsonVal) :=
  match res with
  | .ok v => setKey summary k v
  | .error _ => setKey summary k .null

/-- Handler body of `GET /summary/today` (`get_today_summary` in `main.py`): start
from an empty dict and fill the six keys in order, each from its own
independently-guarded fetch; always a 200. -/
def get_today_summary (env : ClientEnv) (clock : Clock) : HttpResp × List Fetch :=
  let today := clock.today
  let summary : List (String × JsonVal) := []
  let summary := tryKey summary "stats" (env.get_stats today)
  let summary := tryKey summary "heart_rate" (env.get_heart_rates today)
  let summary := tryKey summary "sleep" (env.get_sleep_data today)
  let summary := tryKey summary "stress" (env.get_stress_data today)
  let summary := tryKey summary "body_battery" (env.get_body_battery today)
  let summary := tryKey summary "steps" (env.get_steps_data today)
  (.ok (.obj summary),
   [.get_stats today, .get_heart_rates today, .get_sleep_data today,
    .get_stress_data today, .get_body_battery today, .get_steps_data today])

/-- Dispatch of an authenticated request to its handler body; each
branch mirrors the corresponding `main.py` handler. -/
def handleRouteAuthed (env : ClientEnv) (clock : Clock) : Route → HttpResp × List Fetch
  | .stats_today => get_today_stats env clock
  | .stats_by_date d => passthrough (env.get_stats d) (.get_stats d)
  | .heart_rate_today => passthrough (env.get_heart_rates clock.today) (.get_heart_rates clock.today)
  | .heart_rate_by_date d => passthrough (env.get_heart_rates d) (.get_heart_rates d)
  | .sleep_today => passthrough (env.get_sleep_data clock.today) (.get_sleep_data clock.today)
  | .sleep_by_date d => passthrough (env.get_sleep_data d) (.get_sleep_data d)
  | .stress_today => passthrough (env.get_stress_data clock.today) (.get_stress_data clock.today)
  | .stress_by_date d => passthrough (env.get_stress_data d) (.get_stress_data d)
  | .body_battery_today => passthrough (env.get_body_battery clock.today) (.get_body_battery clock.today)
  | .body_battery_by_date d => passthrough (env.get_body_battery d) (.get_body_battery d)
  | .steps_today => passthrough (env.get_steps_data clock.today) (.get_steps_data clock.today)
  | .steps_by_date d => passthrough (env.get_steps_data d) (.get_steps_data d)
  | .activities_recent limit => passthrough (env.get_activities 0 limit) (.get_activities 0 limit)
  | .activity id => passthrough (env.get_activity id) (.get_activity id)
  | .activity_splits id => passthrough (env.get_activity_splits id) (.get_activity_splits id)
  | .activity_hr_zones id => passthrough (env.get_activity_hr_in_timezones id) (.get_activity_hr_in_timezones id)
  | .weight_latest => passthrough (env.get_body_composition clock.thirtyDaysAgo clock.today) (.get_body_composition clock.thirtyDaysAgo clock.today)
  | .weight_range s e => passthrough (env.get_body_composition s e) (.get_body_composition s e)
  | .spo2_today => passthrough (env.get_spo2_data clock.today) (.get_spo2_data clock.today)
  | .spo2_by_date d => passthrough (env.get_spo2_data d) (.get_spo2_data d)
  | .hrv_today => passthrough (env.get_hrv_data clock.today) (.get_hrv_data clock.today)
  | .hrv_by_date d => passthrough (env.get_hrv_data d) (.get_hrv_data d)
  | .respiration_today => passthrough (env.get_respiration_data clock.today) (.get_respiration_data clock.today)
  | .respiration_by_date d => passthrough (env.get_respiration_data d) (.get_respiration_data d)
  | .user_profile => passthrough env.get_full_name .get_full_name
  | .user_settings => passthrough env.get_user_settings .get_user_settings
  | .devices => passthrough env.get_devices .get_devices
  | .records => passthrough env.get_personal_record .get_personal_record
  | .training_status => passthrough (env.get_training_status clock.today) (.get_training_status clock.today)
  | .summary_today => get_today_summary env clock

/-- A data route behind the `get_client` dependency: when the global
client is `None`, `get_client` raises a 503 before the handler body runs
and no client call is made. -/
def handleRoute (garmin_client : Option GarminClient) (env : ClientEnv)
    (clock : Clock) (r : Route) : HttpResp × List Fetch :=
  match garmin_client with
  | none => (.err 503 "Garmin client not initialized", [])
  | some _ => handleRouteAuthed env clock r

/-- The fixed allow-list of paths that skip the API-key check. -/
def PUBLIC_PATHS : List String :=
  ["/health", "/metrics", "/docs", "/redoc", "/openapi.json"]

/-- Python falsiness of an optional environment string (`not API_KEY`
is true for an unset variable and for the empty string). -/
def strFalsy : Option String → Bool
  | none => true
  | some s => s = ""

/-- Decision of the `APIKeyMiddleware`: let the request through to the
router, or answer it directly. -/
inductive GateDecision where
  | allow
  | deny (resp : HttpResp)

/-- The 401 body returned by the middleware on a key mismatch. -/
def apiKeyUnauthorized : HttpResp :=
  .json 401 (.obj [("error", .str "Unauthorized"),
                   ("detail", .str "Invalid or missing API key")])

/-- Dispatch of `APIKeyMiddleware`: skip the check when no key is
configured or the path is public; otherwise require the `X-API-Key`
header to equal the configured key. -/
def apiKeyDispatch (apiKey : Option String) (path : String)
    (header : Option String) : GateDecision :=
  if strFalsy apiKey then .allow
  else if path ∈ PUBLIC_PATHS then .allow
  else if header = apiKey then .allow
  else .deny apiKeyUnauthorized

/-- A full request through middleware plus router: the middleware runs
first, and only an allowed request reaches a route handler (and hence
the external client). -/
def serveRequest (apiKey : Option String) (garmin_client : Option GarminClient)
    (env : ClientEnv) (clock : Clock) (path : String) (header : Option String)
    (r : Route) : HttpResp × List Fetch :=
  match apiKeyDispatch apiKey path header with
  | .deny resp => (resp, [])
  | .allow => handleRoute garmin_client env clock r

/-- The Prometheus gauges registered when `ENABLE_PROMETHEUS` is on. -/
inductive GaugeId where
  | steps
  | calories
  | active_calories
  | distance
  | hr_resting
  | hr_min
  | hr_max
  | stress_avg
  | stress_max
  | body_battery
  | body_battery_charged
  | body_battery_drained
  | sleep_seconds
  | sleep_score
  | floors_climbed
  | intensity_minutes
  | spo2_avg
  | respiration_avg
  | weight_kg
  | bmi
  | body_fat_pct
  | connected
  deriving DecidableEq, Repr

/-- One `Gauge.set(value)` call issued during a scrape, with the raw
value handed to the gauge library. -/
abbrev GaugeWrite := GaugeId × JsonVal

/-- The `if stats.get(k): GAUGE.set(stats[k])` pattern. -/
def gaugeIf (g : GaugeId) (kvs : List (String × JsonVal)) (k : String) : List GaugeWrite :=
  if truthy (dictGet kvs k) then [(g, dictGet kvs k)] else []

/-- Daily-stats scrape block (`try: stats = ... except: pass`): a
failed fetch or an `AttributeError` on a non-dict payload yields no
writes; otherwise each truthy field sets its gauge, and the intensity
gauge gets `moderate + vigorous` unless that addition raises. -/
def metricsStatsBlock (env : ClientEnv) (today : String) : List GaugeWrite :=
  match env.get_stats today with
  | .error _ => []
  | .ok stats =>
    if truthy stats then
      match stats with
      | .obj kvs =>
        gaugeIf .steps kvs "totalSteps" ++
        gaugeIf .calories kvs "totalKilocalories" ++
        gaugeIf .active_calories kvs "activeKilocalories" ++
        gaugeIf .distance kvs "totalDistanceMeters" ++
        gaugeIf .hr_resting kvs "restingHeartRate" ++
        gaugeIf .hr_min kvs "minHeartRate" ++
        gaugeIf .hr_max kvs "maxHeartRate" ++
        gaugeIf .stress_avg kvs "averageStressLevel" ++
        gaugeIf .stress_max kvs "maxStressLevel" ++
        gaugeIf .floors_climbed kvs "floorsAscended" ++
        (if truthy (dictGet kvs "moderateIntensityMinutes") ||
            truthy (dictGet kvs "vigorousIntensityMinutes") then
           match pyAdd (pyOr (dictGetD kvs "moderateIntensityMinutes" (.num 0)) (.num 0))
                       (pyOr (dictGetD kvs "vigorousIntensityMinutes" (.num 0)) (.num 0)) with
           | .ok s => [(.intensity_minutes, s)]
           | .error _ => []
         else [])
      | _ => []
    else []

/-- Writes from the latest body-battery reading (`if latest:` then
`latest.get("bodyBatteryLevel")`); `AttributeError` on a truthy
non-dict element aborts. -/
def bbLatestWrites (l : JsonVal) : Except String (List GaugeWrite) :=
  if truthy l then
    match l with
    | .obj lk => .ok (gaugeIf .body_battery lk "bodyBatteryLevel")
    | _ => .error "AttributeError: object has no attribute get"
  else .ok []

/-- Writes from the first body-battery reading (charged/drained
summary fields). -/
def bbFirstWrites (f : JsonVal) : Except String (List GaugeWrite) :=
  match f with
  | .obj fk => .ok (gaugeIf .body_battery_charged fk "bodyBatteryChargedValue" ++
                    gaugeIf .body_battery_drained fk "bodyBatteryDrainedValue")
  | _ => .error "AttributeError: object has no attribute get"

/-- Body-battery scrape block: require a truthy non-empty list; read
the last element for the current level and the first element for the
charged/drained totals, keeping the writes made before any exception. -/
def metricsBodyBatteryBlock (env : ClientEnv) (today : String) : List GaugeWrite :=
  match env.get_body_battery today with
  | .error _ => []
  | .ok bb =>
    match bb with
    | .arr xs =>
      if xs.isEmpty then [] else
        match xs.getLast?, xs.head? with
        | some l, some f =>
          (match bbLatestWrites l with
           | .error _ => []
           | .ok w1 =>
             match bbFirstWrites f with
             | .error _ => w1
             | .ok w2 => w1 ++ w2)
        | _, _ => []
    | _ => []

/-- Sleep scrape block: total seconds, then the nested
`overallSleepScore.value` read through `.get(..., {})`. -/
def metricsSleepBlock (env : ClientEnv) (today : String) : List GaugeWrite :=
  match env.get_sleep_data today with
  | .error _ => []
  | .ok sleep =>
    if truthy sleep then
      match sleep with
      | .obj sk =>
        gaugeIf .sleep_seconds sk "sleepTimeSeconds" ++
        (match dictGetD sk "overallSleepScore" (.obj []) with
         | .obj dk =>
           if truthy (dictGet dk "value") then [(.sleep_score, dictGet dk "value")] else []
         | _ => [])
      | _ => []
    else []

/-- SpO2 scrape block. -/
def metricsSpo2Block (env : ClientEnv) (today : String) : List GaugeWrite :=
  match env.get_spo2_data today with
  | .error _ => []
  | .ok spo2 =>
    if truthy spo2 then
      match spo2 with
      | .obj sk => gaugeIf .spo2_avg sk "averageSpO2"
      | _ => []
    else []

/-- Respiration scrape block. -/
def metricsRespirationBlock (env : ClientEnv) (today : String) : List GaugeWrite :=
  match env.get_respiration_data today with
  | .error _ => []
  | .ok resp =>
    if truthy resp then
      match resp with
      | .obj rk => gaugeIf .respiration_avg rk "avgWakingRespirationValue"
      | _ => []
    else []

/-- The bmi and body-fat writes of the weight block. -/
def weightBmiFatWrites (wk : List (String × JsonVal)) : List GaugeWrite :=
  gaugeIf .bmi wk "bmi" ++ gaugeIf .body_fat_pct wk "bodyFat"

/-- Weight scrape block over the 30-day body-composition window: the
weight field is divided by 1000 (grams to kilograms); a `TypeError`
in that division aborts the whole block. -/
def metricsWeightBlock (env : ClientEnv) (clock : Clock) : List GaugeWrite :=
  match env.get_body_composition clock.thirtyDaysAgo clock.today with
  | .error _ => []
  | .ok wd =>
    if truthy wd then
      match wd with
      | .obj wk =>
        if truthy (dictGet wk "weight") then
          match pyDiv (dictGet wk "weight") 1000 with
          | .error _ => []
          | .ok q => (GaugeId.weight_kg, q) :: weightBmiFatWrites wk
        else weightBmiFatWrites wk
      | _ => []
    else []

/-- Handler of `GET /metrics` when `ENABLE_PROMETHEUS` is on
(`prometheus_metrics` in `main.py`): set the connectivity gauge from
the global client; with no client, answer immediately with the registry
rendering; otherwise run the six best-effort scrape blocks. The result
is the list of gauge writes performed plus the fetch trace. -/
def prometheus_metrics (garmin_client : Option GarminClient) (env : ClientEnv)
    (clock : Clock) : List GaugeWrite × List Fetch :=
  let connectedWrite : GaugeWrite :=
    (.connected, .num (if garmin_client.isSome then 1 else 0))
  match garmin_client with
  | none => ([connectedWrite], [])
  | some _ =>
    (connectedWrite ::
       (metricsStatsBlock env clock.today ++
        metricsBodyBatteryBlock env clock.today ++
        metricsSleepBlock env clock.today ++
        metricsSpo2Block env clock.today ++
        metricsRespirationBlock env clock.today ++
        metricsWeightBlock env clock),
     [.get_stats clock.today, .get_body_battery clock.today,
      .get_sleep_data clock.today, .get_spo2_data clock.today,
      .get_respiration_data clock.today,
      .get_body_composition clock.thirtyDaysAgo clock.today])

/-- Observable outcome of a `/metrics` request: a Prometheus exposition
built from the gauge writes, or the disabled-feature JSON error. -/
inductive MetricsResult where
  | exposition (writes : List GaugeWrite)
  | disabledJson (resp : HttpResp)

/-- The `/metrics` endpoint as registered at import time: the enabled
variant scrapes, the disabled variant is a static 404 JSON body
(`prometheus_metrics_disabled` in `main.py`). -/
def metricsEndpoint (enableProm : Bool) (garmin_client : Option GarminClient)
    (env : ClientEnv) (clock : Clock) : MetricsResult × List Fetch :=
  if enableProm then
    let (w, f) := prometheus_metrics garmin_client env clock
    (.exposition w, f)
  else
    (.disabledJson (.json 404 (.obj
        [("error", .str "Prometheus metrics disabled"),
         ("detail", .str "Set ENABLE_PROMETHEUS=true to enable metrics")])), [])

/-- Opaque serialized authentication state (the Token Bundle). -/
abbrev TokenBundle := String

/-- External calls issued by `init_garmin_client`, in order. -/
inductive BootEvent where
  | tokenlessConstruct
  | cachedLogin
  | getFullNameCall
  | credentialConstruct
  | freshLoginCall
  | tokenDump
  deriving DecidableEq, Repr

/-- The value returned by the credential `client.login()` call: a tuple
whose first component matters for the MFA check, or any non-tuple. -/
inductive PyLoginResult where
  | tup (fst : String)
  | nonTuple
  deriving DecidableEq, Repr

/-- The check `isinstance(result, tuple) and result[0] == "needs_mfa"`. -/
def needsMfa : PyLoginResult → Bool
  | .tup fst => fst = "needs_mfa"
  | .nonTuple => false

/-- Oracle for everything outside `init_garmin_client`: configuration
values, the token directory's prior contents, and the outcome of each
external call on the path the bootstrapper takes. -/
structure BootEnv where
  email : Option String
  password : Option String
  tokenStoreDir : Option TokenBundle
  makedirs : Except String Unit
  cachedLoginRes : Except String Unit
  getFullNameRes : Except String String
  freshLoginRes : Except String PyLoginResult
  dumpRes : Except String Unit
  freshTokens : TokenBundle

/-- How `init_garmin_client` can fail: a `ValueError` it raises itself,
or an exception propagated from an external call. -/
inductive BootError where
  | valueError (msg : String)
  | propagated (msg : String)
  deriving DecidableEq, Repr

/-- The `ValueError` raised on a second-factor challenge (the spec's
`MfaRequiredError`). -/
def MfaRequiredError : BootError :=
  .valueError "MFA required - run initial auth manually to generate tokens"

/-- Everything observable about one bootstrap run: its return value or
exception, the ordered external calls, and the token directory's
contents afterwards. -/
structure BootOutcome where
  result : Except BootError GarminClient
  events : List BootEvent
  tokenStoreAfter : Option TokenBundle
  deriving Repr

/-- The fresh-credential tail of `init_garmin_client` (lines 104-116 of
`main.py`): construct with email/password, log in once, raise on an MFA
tuple, dump tokens, return the client. `pre` is the event trace of the
failed cached attempt. -/
def fresh_login_path (env : BootEnv) (pre : List BootEvent) : BootOutcome :=
  let ev := pre ++ [.credentialConstruct, .freshLoginCall]
  match env.freshLoginRes with
  | .error e => ⟨.error (.propagated e), ev, env.tokenStoreDir⟩
  | .ok r =>
    if needsMfa r then
      ⟨.error MfaRequiredError, ev, env.tokenStoreDir⟩
    else
      match env.dumpRes with
      | .error e => ⟨.error (.propagated e), ev ++ [.tokenDump], env.tokenStoreDir⟩
      | .ok _ =>
        ⟨.ok (.fromCredentials (env.email.getD "") (env.password.getD "")),
         ev ++ [.tokenDump], some env.freshTokens⟩

/-- The bootstrapper `init_garmin_client`: require credentials, ensure the token
directory, try a cached-token session verified by one display-name
fetch, and on any failure there fall through to a single
fresh-credential login. -/
def init_garmin_client (env : BootEnv) : BootOutcome :=
  if strFalsy env.email || strFalsy env.password then
    ⟨.error (.valueError "GARMIN_EMAIL and GARMIN_PASSWORD environment variables required"),
     [], env.tokenStoreDir⟩
  else
    match env.makedirs with
    | .error e => ⟨.error (.propagated e), [], env.tokenStoreDir⟩
    | .ok _ =>
      match env.cachedLoginRes with
      | .error _ => fresh_login_path env [.tokenlessConstruct, .cachedLogin]
      | .ok _ =>
        match env.getFullNameRes with
        | .error _ =>
            fresh_login_path env [.tokenlessConstruct, .cachedLogin, .getFullNameCall]
        | .ok _ =>
            ⟨.ok .fromTokens,
             [.tokenlessConstruct, .cachedLogin, .getFullNameCall],
             env.tokenStoreDir⟩

/-- The `lifespan` startup hook: any exception out of
`init_garmin_client` is caught and logged, leaving the global client
absent for the whole run. -/
def lifespan_startup (env : BootEnv) : Option GarminClient :=
  match (init_garmin_client env).result with
  | .ok c => some c
  | .error _ => none

/-! Concrete fixtures used by witness theorems. -/

/-- A clock fixture. -/
def sampleClock : Clock :=
  ⟨"2026-10-12", "2026-10-11", "2026-09-12"⟩

/-- A client oracle where every call raises. -/
def downEnv : ClientEnv where
  get_stats := fun _ => .error "connection reset"
  get_heart_rates := fun _ => .error "connection reset"
  get_sleep_data := fun _ => .error "connection reset"
  get_stress_data := fun _ => .error "connection reset"
  get_body_battery := fun _ => .error "connection reset"
  get_steps_data := fun _ => .error "connection reset"
  get_activities := fun _ _ => .error "connection reset"
  get_activity := fun _ => .error "connection reset"
  get_activity_splits := fun _ => .error "connection reset"
  get_activity_hr_in_timezones := fun _ => .error "connection reset"
  get_body_composition := fun _ _ => .error "connection reset"
  get_spo2_data := fun _ => .error "connection reset"
  get_hrv_data := fun _ => .error "connection reset"
  get_respiration_data := fun _ => .error "connection reset"
  get_full_name := .error "connection reset"
  get_user_settings := .error "connection reset"
  get_devices := .error "connection reset"
  get_personal_record := .error "connection reset"
  get_training_status := fun _ => .error "connection reset"

/-- A client oracle where today's stats have `totalSteps` and
`totalKilocalories` both `None` and any other date has data. -/
def lagEnv : ClientEnv :=
  { downEnv with
    get_stats := fun d =>
      if d = sampleClock.today then
        .ok (.obj [("totalSteps", .null), ("totalKilocalories", .null)])
      else
        .ok (.obj [("totalSteps", .num 8200), ("totalKilocalories", .num 2100)]) }

/-- A bootstrap environment whose cached-token session works. -/
def bootEnvCached : BootEnv where
  email := some "user@example.com"
  password := some "hunter2"
  tokenStoreDir := some "old-token-bundle"
  makedirs := .ok ()
  cachedLoginRes := .ok ()
  getFullNameRes := .ok "Jane Doe"
  freshLoginRes := .error "not reached"
  dumpRes := .error "not reached"
  freshTokens := "fresh-token-bundle"

/-- A bootstrap environment with no usable cached tokens and a clean
credential login. -/
def bootEnvFresh : BootEnv where
  email := some "user@example.com"
  password := some "hunter2"
  tokenStoreDir := some "old-token-bundle"
  makedirs := .ok ()
  cachedLoginRes := .error "no saved tokens found"
  getFullNameRes := .ok "Jane Doe"
  freshLoginRes := .ok .nonTuple
  dumpRes := .ok ()
  freshTokens := "fresh-token-bundle"

/-- A bootstrap environment where the credential login answers with an
MFA tuple. -/
def bootEnvMfa : BootEnv :=
  { bootEnvFresh with freshLoginRes := .ok (.tup "needs_mfa") }

/-- A bootstrap environment where the credential login succeeds but the
token dump raises. -/
def bootEnvDumpFail : BootEnv :=
  { bootEnvFresh with dumpRes := .error "disk full" }

/-! Claim theorems. -/

/-- C1: when the cached-token session construction succeeds and the
display-name verification succeeds, the bootstrapper returns that
handle; no credential-based client construction, no fresh-credential
login and no token write happen, and the token directory is untouched. -/
theorem cached_session_success_no_fresh_login (env : BootEnv)
    (he : strFalsy env.email = false) (hp : strFalsy env.password = false)
    (hm : env.makedirs = .ok ())
    (hc : env.cachedLoginRes = .ok ())
    (n : String) (hv : env.getFullNameRes = .ok n) :
    (init_garmin_client env).result = .ok .fromTokens ∧
    (init_garmin_client env).events =
      [.tokenlessConstruct, .cachedLogin, .getFullNameCall] ∧
    BootEvent.credentialConstruct ∉ (init_garmin_client env).events ∧
    BootEvent.freshLoginCall ∉ (init_garmin_client env).events ∧
    BootEvent.tokenDump ∉ (init_garmin_client env).events ∧
    (init_garmin_client env).tokenStoreAfter = env.tokenStoreDir := by
  simp [init_garmin_client, he, hp, hm, hc, hv]

/-- Witness for C1 at the concrete environment `bootEnvCached`. -/
theorem cached_session_success_no_fresh_login_witness :
    (init_garmin_client bootEnvCached).result = .ok .fromTokens ∧
    (init_garmin_client bootEnvCached).events =
      [.tokenlessConstruct, .cachedLogin, .getFullNameCall] ∧
    BootEvent.credentialConstruct ∉ (init_garmin_client bootEnvCached).events ∧
    BootEvent.freshLoginCall ∉ (init_garmin_client bootEnvCached).events ∧
    BootEvent.tokenDump ∉ (init_garmin_client bootEnvCached).events ∧
    (init_garmin_client bootEnvCached).tokenStoreAfter = bootEnvCached.tokenStoreDir :=
  cached_session_success_no_fresh_login bootEnvCached rfl rfl rfl rfl "Jane Doe" rfl

/-- C2: when the cached-session attempt fails (either the token load or
the verification call), exactly one fresh credential login is attempted;
if it succeeds without an MFA tuple and the dump goes through, the token
directory is overwritten with the fresh bundle and the credential handle
is returned. -/
theorem cached_failure_single_fresh_login (env : BootEnv)
    (he : strFalsy env.email = false) (hp : strFalsy env.password = false)
    (hm : env.makedirs = .ok ())
    (hc : (∃ e, env.cachedLoginRes = .error e) ∨
          (env.cachedLoginRes = .ok () ∧ ∃ e, env.getFullNameRes = .error e)) :
    ((init_garmin_client env).events.count .freshLoginCall = 1 ∧
     (init_garmin_client env).events.count .credentialConstruct = 1) ∧
    (∀ r, env.freshLoginRes = .ok r → needsMfa r = false → env.dumpRes = .ok () →
       (init_garmin_client env).result =
         .ok (.fromCredentials (env.email.getD "") (env.password.getD "")) ∧
       BootEvent.tokenDump ∈ (init_garmin_client env).events ∧
       (init_garmin_client env).tokenStoreAfter = some env.freshTokens) := by
  have hinit : init_garmin_client env =
      fresh_login_path env [.tokenlessConstruct, .cachedLogin] ∨
      init_garmin_client env =
      fresh_login_path env [.tokenlessConstruct, .cachedLogin, .getFullNameCall] := by
    rcases hc with ⟨e, hce⟩ | ⟨hok, e, hfe⟩
    · exact Or.inl (by simp [init_garmin_client, he, hp, hm, hce])
    · exact Or.inr (by simp [init_garmin_client, he, hp, hm, hok, hfe])
  constructor
  · rcases hinit with hi | hi <;> rw [hi] <;>
    · cases hr : env.freshLoginRes with
      | error s => simp [fresh_login_path, hr]
      | ok r =>
        by_cases hmf : needsMfa r
        · simp [fresh_login_path, hr, hmf]
        · cases hd : env.dumpRes with
          | error s => simp [fresh_login_path, hr, hmf, hd]
          | ok u => simp [fresh_login_path, hr, hmf, hd]
  · rintro r hr hmfa hd
    rcases hinit with hi | hi <;> rw [hi] <;>
      simp [fresh_login_path, hr, hmfa, hd]

/-- Witness for C2 at the concrete environment `bootEnvFresh`. -/
theorem cached_failure_single_fresh_login_witness :
    ((init_garmin_client bootEnvFresh).events.count .freshLoginCall = 1 ∧
     (init_garmin_client bootEnvFresh).events.count .credentialConstruct = 1) ∧
    ((init_garmin_client bootEnvFresh).result =
       .ok (.fromCredentials "user@example.com" "hunter2") ∧
     BootEvent.tokenDump ∈ (init_garmin_client bootEnvFresh).events ∧
     (init_garmin_client bootEnvFresh).tokenStoreAfter = some "fresh-token-bundle") := by
  have h := cached_failure_single_fresh_login bootEnvFresh rfl rfl rfl
      (Or.inl ⟨"no saved tokens found", rfl⟩)
  exact ⟨h.1, h.2 .nonTuple rfl rfl rfl⟩

/-- C3: when the fresh-login response is an MFA tuple, the bootstrapper
raises the MFA `ValueError` (the spec's `MfaRequiredError`), no token
dump call is issued, the token directory is untouched, and no Session
Handle is produced. -/
theorem mfa_challenge_fails_no_token_write (env : BootEnv)
    (he : strFalsy env.email = false) (hp : strFalsy env.password = false)
    (hm : env.makedirs = .ok ())
    (hc : (∃ e, env.cachedLoginRes = .error e) ∨
          (env.cachedLoginRes = .ok () ∧ ∃ e, env.getFullNameRes = .error e))
    (r : PyLoginResult) (hr : env.freshLoginRes = .ok r)
    (hmfa : needsMfa r = true) :
    (init_garmin_client env).result = .error MfaRequiredError ∧
    BootEvent.tokenDump ∉ (init_garmin_client env).events ∧
    (init_garmin_client env).tokenStoreAfter = env.tokenStoreDir ∧
    lifespan_startup env = none := by
  have hinit : init_garmin_client env =
      fresh_login_path env [.tokenlessConstruct, .cachedLogin] ∨
      init_garmin_client env =
      fresh_login_path env [.tokenlessConstruct, .cachedLogin, .getFullNameCall] := by
    rcases hc with ⟨e, hce⟩ | ⟨hok, e, hfe⟩
    · exact Or.inl (by simp [init_garmin_client, he, hp, hm, hce])
    · exact Or.inr (by simp [init_garmin_client, he, hp, hm, hok, hfe])
  rcases hinit with hi | hi <;>
    refine ⟨?_, ?_, ?_, ?_⟩ <;>
      simp [lifespan_startup, hi, fresh_login_path, hr, hmfa]

/-- Witness for C3 at the concrete environment `bootEnvMfa`. -/
theorem mfa_challenge_fails_no_token_write_witness :
    (init_garmin_client bootEnvMfa).result = .error MfaRequiredError ∧
    BootEvent.tokenDump ∉ (init_garmin_client bootEnvMfa).events ∧
    (init_garmin_client bootEnvMfa).tokenStoreAfter = bootEnvMfa.tokenStoreDir ∧
    lifespan_startup bootEnvMfa = none :=
  mfa_challenge_fails_no_token_write bootEnvMfa rfl rfl rfl
    (Or.inl ⟨"no saved tokens found", rfl⟩) (.tup "needs_mfa") rfl rfl

/-- C4 counterexample: with a clean fresh login but a failing token
dump (`bootEnvDumpFail`), `init_garmin_client` raises the dump's
exception instead of returning the authenticated handle, and the
lifespan hook leaves the global client absent. -/
theorem dump_failure_counterexample :
    (init_garmin_client bootEnvDumpFail).result = .error (.propagated "disk full") ∧
    (init_garmin_client bootEnvDumpFail).result ≠
      .ok (.fromCredentials "user@example.com" "hunter2") ∧
    lifespan_startup bootEnvDumpFail = none := by
  refine ⟨rfl, ?_, rfl⟩
  intro h
  rw [show (init_garmin_client bootEnvDumpFail).result =
        .error (.propagated "disk full") from rfl] at h
  exact Except.noConfusion h

/-- C4 amended: a failure while persisting the session state after a
successful fresh login propagates out of the bootstrapper — the dump
call is issued and the token directory is left untouched, but no
Session Handle is returned and the lifespan hook leaves the global
client absent for the run. -/
theorem dump_failure_propagates (env : BootEnv)
    (he : strFalsy env.email = false) (hp : strFalsy env.password = false)
    (hm : env.makedirs = .ok ())
    (hc : (∃ e, env.cachedLoginRes = .error e) ∨
          (env.cachedLoginRes = .ok () ∧ ∃ e, env.getFullNameRes = .error e))
    (r : PyLoginResult) (hr : env.freshLoginRes = .ok r)
    (hmfa : needsMfa r = false)
    (e : String) (hd : env.dumpRes = .error e) :
    (init_garmin_client env).result = .error (.propagated e) ∧
    BootEvent.tokenDump ∈ (init_garmin_client env).events ∧
    (init_garmin_client env).tokenStoreAfter = env.tokenStoreDir ∧
    lifespan_startup env = none := by
  have hinit : init_garmin_client env =
      fresh_login_path env [.tokenlessConstruct, .cachedLogin] ∨
      init_garmin_client env =
      fresh_login_path env [.tokenlessConstruct, .cachedLogin, .getFullNameCall] := by
    rcases hc with ⟨e', hce⟩ | ⟨hok, e', hfe⟩
    · exact Or.inl (by simp [init_garmin_client, he, hp, hm, hce])
    · exact Or.inr (by simp [init_garmin_client, he, hp, hm, hok, hfe])
  rcases hinit with hi | hi <;>
    refine ⟨?_, ?_, ?_, ?_⟩ <;>
      simp [lifespan_startup, hi, fresh_login_path, hr, hmfa, hd]

/-- Witness for the amended C4 at the concrete environment
`bootEnvDumpFail`. -/
theorem dump_failure_propagates_witness :
    (init_garmin_client bootEnvDumpFail).result = .error (.propagated "disk full") ∧
    BootEvent.tokenDump ∈ (init_garmin_client bootEnvDumpFail).events ∧
    (init_garmin_client bootEnvDumpFail).tokenStoreAfter = bootEnvDumpFail.tokenStoreDir ∧
    lifespan_startup bootEnvDumpFail = none :=
  dump_failure_propagates bootEnvDumpFail rfl rfl rfl
    (Or.inl ⟨"no saved tokens found", rfl⟩) .nonTuple rfl rfl "disk full" rfl

/-- The `is None` test succeeds exactly on `null`. -/
theorem isNull_true_iff (v : JsonVal) : isNull v = true ↔ v = .null := by
  cases v <;> simp [isNull]

/-- The `is None` test fails exactly off `null`. -/
theorem isNull_false_iff (v : JsonVal) : isNull v = false ↔ v ≠ .null := by
  cases v <;> simp [isNull]

/-- C5: with a live handle, when today's stats carry `totalSteps` and
`totalKilocalories` both absent-or-null, the stats-today route issues
exactly the two fetches (today then yesterday) and returns yesterday's
stats annotated with `_fallback = true` and `_requestedDate = today`;
when either field is non-null, it issues only the today fetch and
returns today's stats unmodified. -/
theorem stats_today_fallback (c : GarminClient) (env : ClientEnv) (clock : Clock)
    (ckvs : List (String × JsonVal))
    (ht : env.get_stats clock.today = .ok (.obj ckvs)) :
    ((dictGet ckvs "totalSteps" = .null ∧ dictGet ckvs "totalKilocalories" = .null) →
       (handleRoute (some c) env clock .stats_today).2 =
         [.get_stats clock.today, .get_stats clock.yesterday] ∧
       (∀ ykvs, env.get_stats clock.yesterday = .ok (.obj ykvs) →
          handleRoute (some c) env clock .stats_today =
            (.ok (.obj (setKey (setKey ykvs "_fallback" (.bool true))
                               "_requestedDate" (.str clock.today))),
             [.get_stats clock.today, .get_stats clock.yesterday]))) ∧
    ((dictGet ckvs "totalSteps" ≠ .null ∨ dictGet ckvs "totalKilocalories" ≠ .null) →
       handleRoute (some c) env clock .stats_today =
         (.ok (.obj ckvs), [.get_stats clock.today])) := by
  have hh : handleRoute (some c) env clock .stats_today = get_today_stats env clock := rfl
  constructor
  · rintro ⟨h1, h2⟩
    have hb1 : isNull (dictGet ckvs "totalSteps") = true := (isNull_true_iff _).mpr h1
    have hb2 : isNull (dictGet ckvs "totalKilocalories") = true := (isNull_true_iff _).mpr h2
    constructor
    · rw [hh]
      cases hy : env.get_stats clock.yesterday with
      | error e => simp [get_today_stats, ht, pyGetAttr, hb1, hb2, hy]
      | ok y =>
        cases y <;>
          simp [get_today_stats, ht, pyGetAttr, hb1, hb2, hy, pySetItem, Except.bind]
    · intro ykvs hy
      rw [hh]
      simp [get_today_stats, ht, pyGetAttr, hb1, hb2, hy, pySetItem, Except.bind]
  · intro hne
    rw [hh]
    by_cases hb1 : isNull (dictGet ckvs "totalSteps") = true
    · have hb2 : isNull (dictGet ckvs "totalKilocalories") = false := by
        rcases hne with hne | hne
        · exact absurd ((isNull_true_iff _).mp hb1) hne
        · exact (isNull_false_iff _).mpr hne
      simp [get_today_stats, ht, pyGetAttr, hb1, hb2]
    · have hb1' : isNull (dictGet ckvs "totalSteps") = false :=
        Bool.not_eq_true _ ▸ (by simpa using hb1)
      simp [get_today_stats, ht, pyGetAttr, hb1']

/-- Witness for C5 at the concrete environment `lagEnv`, whose today
stats are lag-empty. -/
theorem stats_today_fallback_witness :
    ((handleRoute (some .fromTokens) lagEnv sampleClock .stats_today).2 =
       [.get_stats sampleClock.today, .get_stats sampleClock.yesterday]) ∧
    handleRoute (some .fromTokens) lagEnv sampleClock .stats_today =
      (.ok (.obj [("totalSteps", .num 8200), ("totalKilocalories", .num 2100),
                  ("_fallback", .bool true),
                  ("_requestedDate", .str "2026-10-12")]),
       [.get_stats sampleClock.today, .get_stats sampleClock.yesterday]) := by
  have h := (stats_today_fallback .fromTokens lagEnv sampleClock
      [("totalSteps", .null), ("totalKilocalories", .null)] rfl).1 ⟨rfl, rfl⟩
  exact ⟨h.1, h.2 [("totalSteps", .num 8200), ("totalKilocalories", .num 2100)] rfl⟩

/-- C6: with a live handle, the summary-today route always answers 200
with exactly the six keys in order, each key holding its own fetch's
payload or `None` when that fetch raised, independently of the other
five; all six fetches are issued. -/
theorem summary_today_six_keys (c : GarminClient) (env : ClientEnv) (clock : Clock) :
    handleRoute (some c) env clock .summary_today =
      (.ok (.obj
          [("stats", orNull (env.get_stats clock.today)),
           ("heart_rate", orNull (env.get_heart_rates clock.today)),
           ("sleep", orNull (env.get_sleep_data clock.today)),
           ("stress", orNull (env.get_stress_data clock.today)),
           ("body_battery", orNull (env.get_body_battery clock.today)),
           ("steps", orNull (env.get_steps_data clock.today))]),
       [.get_stats clock.today, .get_heart_rates clock.today,
        .get_sleep_data clock.today, .get_stress_data clock.today,
        .get_body_battery clock.today, .get_steps_data clock.today]) := by
  have tk : ∀ (s : List (String × JsonVal)) (k : String) (res : Except String JsonVal),
      tryKey s k res = setKey s k (orNull res) := by
    intro s k res
    cases res <;> rfl
  show get_today_summary env clock = _
  simp only [get_today_summary, tk]
  rfl

/-- C7: the Access Gate lets every request through when no key is
configured; with a configured key, allow-listed paths pass regardless of
the header, and any other path passes exactly when `X-API-Key` equals
the key, else the request is answered 401 with no route logic and no
client call. -/
theorem api_key_gate (apiKey : Option String) (garmin_client : Option GarminClient)
    (env : ClientEnv) (clock : Clock) (path : String) (header : Option String)
    (r : Route) :
    (strFalsy apiKey = true →
       serveRequest apiKey garmin_client env clock path header r =
         handleRoute garmin_client env clock r) ∧
    (strFalsy apiKey = false →
       (path ∈ PUBLIC_PATHS →
          serveRequest apiKey garmin_client env clock path header r =
            handleRoute garmin_client env clock r) ∧
       (path ∉ PUBLIC_PATHS →
          (header = apiKey →
             serveRequest apiKey garmin_client env clock path header r =
               handleRoute garmin_client env clock r) ∧
          (header ≠ apiKey →
             serveRequest apiKey garmin_client env clock path header r =
               (apiKeyUnauthorized, [])))) := by
  constructor
  · intro hf
    simp [serveRequest, apiKeyDispatch, hf]
  · intro hf
    constructor
    · intro hp
      simp [serveRequest, apiKeyDispatch, hf, hp]
    · intro hp
      constructor
      · intro hh
        simp [serveRequest, apiKeyDispatch, hf, hp, hh]
      · intro hh
        simp [serveRequest, apiKeyDispatch, hf, hp, hh]

/-- Witness for C7: with key `secret-key`, a matching header passes to
the router, a missing header on a private path is answered 401 with no
fetch, the public `/health` path passes without a header, and with no
configured key everything passes. -/
theorem api_key_gate_witness :
    serveRequest (some "secret-key") none downEnv sampleClock
        "/stats/today" (some "secret-key") .stats_today =
      handleRoute none downEnv sampleClock .stats_today ∧
    serveRequest (some "secret-key") none downEnv sampleClock
        "/stats/today" none .stats_today = (apiKeyUnauthorized, []) ∧
    serveRequest (some "secret-key") none downEnv sampleClock
        "/health" none .stats_today =
      handleRoute none downEnv sampleClock .stats_today ∧
    serveRequest none none downEnv sampleClock
        "/stats/today" none .stats_today =
      handleRoute none downEnv sampleClock .stats_today := by
  have h1 := api_key_gate (some "secret-key") none downEnv sampleClock
      "/stats/today" (some "secret-key") .stats_today
  have h2 := api_key_gate (some "secret-key") none downEnv sampleClock
      "/stats/today" none .stats_today
  have h3 := api_key_gate (some "secret-key") none downEnv sampleClock
      "/health" none .stats_today
  have h4 := api_key_gate none none downEnv sampleClock
      "/stats/today" none .stats_today
  exact ⟨((h1.2 rfl).2 (by decide)).1 rfl,
         ((h2.2 rfl).2 (by decide)).2 (by decide),
         (h3.2 rfl).1 (by decide),
         h4.1 rfl⟩

/-- C8: with the global client absent, every data route answers the 503
"Garmin client not initialized" error and issues no client call. -/
theorem no_client_routes_unavailable (env : ClientEnv) (clock : Clock) (r : Route) :
    handleRoute none env clock r = (.err 503 "Garmin client not initialized", []) :=
  rfl

/-- C9: with `ENABLE_PROMETHEUS` off, the metrics endpoint is the
static 404 JSON error whatever the client state; with it on and no
client, the scrape writes only the connectivity gauge, at 0, and issues
no fetches. -/
theorem metrics_gating (garmin_client : Option GarminClient) (env : ClientEnv)
    (clock : Clock) :
    metricsEndpoint false garmin_client env clock =
      (.disabledJson (.json 404 (.obj
          [("error", .str "Prometheus metrics disabled"),
           ("detail", .str "Set ENABLE_PROMETHEUS=true to enable metrics")])), []) ∧
    metricsEndpoint true none env clock =
      (.exposition [(.connected, .num 0)], []) :=
  ⟨rfl, rfl⟩

/-- C10: with a live handle, the per-date stats route issues exactly
one fetch for the given date string and passes its payload through
unmodified (no fallback, no annotation), or maps its exception to a
500; this holds for every date string, including today's. -/
theorem stats_by_date_no_fallback (c : GarminClient) (env : ClientEnv)
    (clock : Clock) (d : String) :
    (∀ v, env.get_stats d = .ok v →
       handleRoute (some c) env clock (.stats_by_date d) =
         (.ok v, [.get_stats d])) ∧
    (∀ e, env.get_stats d = .error e →
       handleRoute (some c) env clock (.stats_by_date d) =
         (.err 500 e, [.get_stats d])) := by
  constructor <;> intro x hx <;>
    simp [handleRoute, handleRouteAuthed, passthrough, hx]

/-- Witness for C10 at `lagEnv` with the date equal to today, whose
stats have both fields null: the payload still comes back unannotated. -/
theorem stats_by_date_no_fallback_witness :
    handleRoute (some .fromTokens) lagEnv sampleClock (.stats_by_date "2026-10-12") =
      (.ok (.obj [("totalSteps", .null), ("totalKilocalories", .null)]),
       [.get_stats "2026-10-12"]) :=
  (stats_by_date_no_fallback .fromTokens lagEnv sampleClock "2026-10-12").1
    (.obj [("totalSteps", .null), ("totalKilocalories", .null)]) rfl

end GarminWrapper
